import Mathlib

/-!
Verification development for the zero-rate discount-curve module
(`financepy/market/curves/FinDiscountCurveZeros.py`).

The constructor, `_buildCurvePoints`, `bump` and `__repr__` of
`FinDiscountCurveZeros` are translated directly from the source.  The
collaborators that the source imports from elsewhere in the library
(the `FinDiscountCurve` base type, `zeroToDf`, `timesFromDates`,
`testMonotonicity`, `labelToString`, the convention enumerations and the
zero-rate query of the base curve) are not part of the analysed sources;
each of those carries a doc comment starting `Modelled from the spec:`
and follows the specification's description of that collaborator.

Real-valued arithmetic of the original (done on floats) is modelled on
`ℝ`; rates, times and date coordinates are kept in `ℚ` so that the
control flow of the constructor (all of whose decisions are comparisons
of integers and rationals) stays decidable.
-/

/-- Modelled from the spec: the recognized compounding-frequency
enumeration (`FinFrequencyTypes`), "annual, semiannual, continuous,
etc.". -/
inductive FinFrequencyTypes where
  | ANNUAL
  | SEMI_ANNUAL
  | QUARTERLY
  | MONTHLY
  | CONTINUOUS
  deriving DecidableEq

/-- Modelled from the spec: the recognized day-count enumeration
(`FinDayCountTypes`); the day-count rule itself is an external
collaborator, only membership matters to the analysed code. -/
inductive FinDayCountTypes where
  | ACT_ACT_ISDA
  | ACT_360
  | ACT_365F
  | THIRTY_360
  deriving DecidableEq

/-- Modelled from the spec: the recognized interpolation-method
enumeration (`FinInterpMethods`), with at minimum the flat-forward
scheme. -/
inductive FinInterpMethods where
  | FLAT_FORWARDS
  | LINEAR_ZERO_RATES
  | LINEAR_SWAP_RATES
  deriving DecidableEq

/-- A dynamically-typed compounding-frequency argument: either a member
of the enumeration or some other value (carrying its `str` rendering).
The spec calls the membership test "a defensive check against
dynamically-typed misuse", so non-member values are representable. -/
inductive PyFreq where
  | mem (f : FinFrequencyTypes)
  | notEnum (s : String)
  deriving DecidableEq

/-- A dynamically-typed day-count argument (member or other value). -/
inductive PyDayCount where
  | mem (dc : FinDayCountTypes)
  | notEnum (s : String)
  deriving DecidableEq

/-- A dynamically-typed interpolation-method argument (member or other
value); the constructor never tests membership of this one. -/
inductive PyInterp where
  | mem (m : FinInterpMethods)
  | notEnum (s : String)
  deriving DecidableEq

/-- The exceptions the analysed code can raise: `FinError` (the
library's single error class, carrying a message), Python's
`AttributeError` (reading a never-assigned attribute) and `IndexError`
(indexing past the end of a list). -/
inductive PyError where
  | finError (msg : String)
  | attributeError (attr : String)
  | indexError
  deriving DecidableEq

/-- The Python class name of a raised exception.  Every `raise` in the
analysed constructor uses the single class `FinError`. -/
def pyErrKind : PyError → String
  | .finError _ => "FinError"
  | .attributeError _ => "AttributeError"
  | .indexError => "IndexError"

/-- Modelled from the spec: calendar dates are consumed only through the
Time Mapper, so a date is reduced to its time coordinate measured in
years (a rational, so that the constructor's comparisons stay
decidable). -/
structure FinDate where
  t : ℚ
  deriving DecidableEq

/-- Modelled from the spec: the Time Mapper "converts a valuation date
plus a sequence of future dates into a sequence of non-negative
year-fractions under a day-count convention" (`timesFromDates`).  The
year fraction is the coordinate difference; a date not after the
valuation date maps to `0`, honouring the stated non-negativity.  The
day-count selector does not change the modelled fraction. -/
def timesFromDates (zeroDates : List FinDate) (valuationDate : FinDate)
    (_dayCountType : FinDayCountTypes) : List ℚ :=
  zeroDates.map fun d => if d.t ≤ valuationDate.t then 0 else d.t - valuationDate.t

/-- Modelled from the spec: `testMonotonicity` decides whether "the
resulting year-fraction sequence [is] strictly monotonically
increasing". -/
def testMonotonicity : List ℚ → Bool
  | [] => true
  | [_] => true
  | x :: y :: rest => decide (x < y) && testMonotonicity (y :: rest)

/-- The number of compoundings per year of a frequency convention (the
value is never used for the continuous convention). -/
def freqValQ : FinFrequencyTypes → ℚ
  | .ANNUAL => 1
  | .SEMI_ANNUAL => 2
  | .QUARTERLY => 4
  | .MONTHLY => 12
  | .CONTINUOUS => 0

/-- Modelled from the spec: the Rate Converter (`zeroToDf`) "converts a
(zero rate, time, compounding-frequency) triple into a discount
factor": `exp (-r t)` under continuous compounding and
`(1 + r/f) ^ (-f t)` under a discrete frequency `f` (the worked example
gives `1/1.02` and `1/1.025^2` for annual compounding). -/
noncomputable def zeroToDf (r : ℚ) (t : ℚ) (f : FinFrequencyTypes) : ℝ :=
  match f with
  | .CONTINUOUS => Real.exp (-(r : ℝ) * (t : ℝ))
  | _ => (1 + (r : ℝ) / (freqValQ f : ℝ)) ^ (-((freqValQ f : ℝ) * (t : ℝ)))

/-- Modelled from the spec: the inverse of the Rate Converter, used by
the zero-rate query ("derives the annualized zero rate implied by
getDiscountFactor(t) under the curve's own compounding-frequency
convention"). -/
noncomputable def dfToZero (df : ℝ) (t : ℝ) (f : FinFrequencyTypes) : ℝ :=
  match f with
  | .CONTINUOUS => -Real.log df / t
  | _ => (freqValQ f : ℝ) * (df ^ (-(1 / ((freqValQ f : ℝ) * t))) - 1)

/-- Modelled from the spec: the string-formatting helper
`labelToString`, producing one line of the diagnostic rendering per
call. -/
def labelToString (label : String) (value : String) : String :=
  label ++ ": " ++ value ++ "\n"

/-- A rendering of a rational number used by the modelled `str`. -/
def ratStr (q : ℚ) : String :=
  if q.den = 1 then toString q.num
  else toString q.num ++ "/" ++ toString q.den

/-- Modelled from the spec: the `str` rendering of a date. -/
def pyStrDate (d : FinDate) : String := "FinDate(" ++ ratStr d.t ++ ")"

/-- The `str` rendering of a frequency-enumeration member. -/
def pyStrFreqT : FinFrequencyTypes → String
  | .ANNUAL => "FinFrequencyTypes.ANNUAL"
  | .SEMI_ANNUAL => "FinFrequencyTypes.SEMI_ANNUAL"
  | .QUARTERLY => "FinFrequencyTypes.QUARTERLY"
  | .MONTHLY => "FinFrequencyTypes.MONTHLY"
  | .CONTINUOUS => "FinFrequencyTypes.CONTINUOUS"

/-- Modelled from the spec: the base `FinDiscountCurve` "holds an
ordered point list and an interpolation method selector"; `bump`
constructs one from a valuation date, times, discount factors and the
interpolation method. -/
structure FinDiscountCurve where
  _valuationDate : FinDate
  _times : List ℚ
  _dfValues : List ℝ
  _interpMethod : PyInterp

/-- The state of a `FinDiscountCurveZeros` object: exactly the
attributes assigned by `__init__` and `_buildCurvePoints`.  The
`_discountFactors` attribute read by `bump` is never assigned on this
construction path (the spec flags this as a latent inconsistency), so
it is modelled as an optional attribute which construction leaves
absent. -/
structure FinDiscountCurveZeros where
  _valuationDate : FinDate
  _frequencyType : FinFrequencyTypes
  _dayCountType : FinDayCountTypes
  _interpMethod : PyInterp
  _times : List ℚ
  _zeroRates : List ℚ
  _zeroDates : List FinDate
  _dfValues : List ℝ
  _discountFactors : Option (List ℝ)

/-- `_buildCurvePoints`: "extract discount factors from zero rates" by
applying `zeroToDf` to each (rate, time) pair, walking the indices of
`_times` (translated as a zip, the two lists having equal length at
every call site). -/
noncomputable def buildCurvePoints (times : List ℚ) (zeroRates : List ℚ)
    (f : FinFrequencyTypes) : List ℝ :=
  (times.zip zeroRates).map fun p => zeroToDf p.2 p.1 f

/-- The object state produced by a successful run of
`FinDiscountCurveZeros.__init__`. -/
noncomputable def mkCurve (valuationDate : FinDate) (zeroDates : List FinDate)
    (zeroRates : List ℚ) (f : FinFrequencyTypes) (dc : FinDayCountTypes)
    (im : PyInterp) : FinDiscountCurveZeros :=
  { _valuationDate := valuationDate
    _frequencyType := f
    _dayCountType := dc
    _interpMethod := im
    _times := timesFromDates zeroDates valuationDate dc
    _zeroRates := zeroRates
    _zeroDates := zeroDates
    _dfValues := buildCurvePoints (timesFromDates zeroDates valuationDate dc) zeroRates f
    _discountFactors := none }

/-- `FinDiscountCurveZeros.__init__`, with its checks in source order:
empty dates, length mismatch, frequency membership, day-count
membership, then (after computing the times) monotonicity.  The
`checkArgumentTypes` helper is an external collaborator the spec does
not describe; the embedding's types subsume it except for the
enum-misuse values, which the spec's design note says reach the
membership checks. -/
noncomputable def construct (valuationDate : FinDate) (zeroDates : List FinDate)
    (zeroRates : List ℚ) (frequencyType : PyFreq) (dayCountType : PyDayCount)
    (interpMethod : PyInterp) : Except PyError FinDiscountCurveZeros :=
  if zeroDates.length = 0 then
    .error (.finError "Dates has zero length")
  else if zeroDates.length ≠ zeroRates.length then
    .error (.finError "Dates and Rates are not the same length")
  else
    match frequencyType with
    | .notEnum s => .error (.finError ("Unknown Frequency type " ++ s))
    | .mem f =>
      match dayCountType with
      | .notEnum s => .error (.finError ("Unknown Cap Floor DayCountRule type " ++ s))
      | .mem dc =>
        if testMonotonicity (timesFromDates zeroDates valuationDate dc) = false then
          .error (.finError "Times or dates are not sorted in increasing order")
        else
          .ok (mkCurve valuationDate zeroDates zeroRates f dc interpMethod)

/-- `FinDiscountCurveZeros.bump`: copies `_times`, reads the
`_discountFactors` attribute (an `AttributeError` when absent), scales
entry `i` by `exp (-bumpSize * t_i)` for each index `i` of `_times`
(an `IndexError` when the factor list is shorter), and builds a base
`FinDiscountCurve` from the valuation date, the times, the scaled
factors and the interpolation method. -/
noncomputable def bump (c : FinDiscountCurveZeros) (bumpSize : ℝ) :
    Except PyError FinDiscountCurve :=
  match c._discountFactors with
  | none => .error (.attributeError "_discountFactors")
  | some dfs =>
    if dfs.length < c._times.length then .error .indexError
    else
      .ok { _valuationDate := c._valuationDate
            _times := c._times
            _dfValues :=
              ((c._times.zip dfs).map fun p => p.2 * Real.exp (-bumpSize * (p.1 : ℝ)))
                ++ dfs.drop c._times.length
            _interpMethod := c._interpMethod }

/-- `FinDiscountCurveZeros.__repr__`: the class name, a
("DATES", "ZERO RATES") header line, one line per point (the point
count taken from `_times`, the shown values from the retained
`_zeroDates` and `_zeroRates`), then the frequency line. -/
def reprZeros (c : FinDiscountCurveZeros) : String :=
  "FinDiscountCurveZeros" ++ "\n"
    ++ labelToString "DATES" "ZERO RATES"
    ++ String.join ((List.range c._times.length).map fun i =>
        labelToString (pyStrDate (c._zeroDates.getD i ⟨0⟩)) (ratStr (c._zeroRates.getD i 0)))
    ++ labelToString "FREQUENCY" (pyStrFreqT c._frequencyType)

/-- The diagnostic rendering exactly as the claim words it: "the curve
type name, then one line per observation showing the original zero date
and original zero rate in input order, then the compounding-frequency
label" — no other line.  This follows the claim, to be compared with
the source's `reprZeros`. -/
def reprPerClaim (c : FinDiscountCurveZeros) : String :=
  "FinDiscountCurveZeros" ++ "\n"
    ++ String.join ((c._zeroDates.zip c._zeroRates).map fun p =>
        labelToString (pyStrDate p.1) (ratStr p.2))
    ++ labelToString "FREQUENCY" (pyStrFreqT c._frequencyType)

/-- The rendering of the amended claim: type name, then the header
line, then one line per retained observation in input order, then the
frequency label — written as a function of the retained inputs only. -/
def reprAmended (c : FinDiscountCurveZeros) : String :=
  "FinDiscountCurveZeros" ++ "\n"
    ++ labelToString "DATES" "ZERO RATES"
    ++ String.join ((c._zeroDates.zip c._zeroRates).map fun p =>
        labelToString (pyStrDate p.1) (ratStr p.2))
    ++ labelToString "FREQUENCY" (pyStrFreqT c._frequencyType)

/-- Modelled from the spec: the interpolation evaluator for the
flat-forward scheme, anchored at a start point.  On a segment from
`(t0, df0)` to `(t1, df1)` the discount factor is
`df0 * (df1/df0) ^ ((t - t0)/(t1 - t0))` (a constant instantaneous
forward rate); the final segment's forward rate also serves beyond the
last point, per the stated extrapolation policy. -/
noncomputable def interpolateFF : ℝ → ℝ → List (ℝ × ℝ) → ℝ → ℝ
  | _, df0, [], _ => df0
  | t0, df0, (t1, df1) :: rest, t =>
    if rest = [] ∨ t ≤ t1 then df0 * (df1 / df0) ^ ((t - t0) / (t1 - t0))
    else interpolateFF t1 df1 rest t

/-- Modelled from the spec: the discount-factor query of the base
curve, interpolating the stored points from the anchor `(0, 1)`; the
spec specifies concretely only the flat-forward scheme ("at minimum"),
which the model uses for every selector value. -/
noncomputable def getDiscountFactor (c : FinDiscountCurveZeros) (t : ℝ) : ℝ :=
  interpolateFF 0 1 ((c._times.map fun (q : ℚ) => (q : ℝ)).zip c._dfValues) t

/-- Modelled from the spec: the zero-rate query, "the inverse of the
Rate Converter" applied to the queried discount factor under the
curve's own compounding convention. -/
noncomputable def getZeroRate (c : FinDiscountCurveZeros) (t : ℝ) : ℝ :=
  dfToZero (getDiscountFactor c t) t c._frequencyType

/-- The error of a failed computation (junk value on success). -/
def errOf (e : Except PyError FinDiscountCurveZeros) : PyError :=
  match e with
  | .error err => err
  | .ok _ => .finError ""

/-- Rates for which the Rate Converter is nondegenerate under frequency
`f`: no condition under continuous compounding, and `1 + r/f > 0`
under a discrete frequency. -/
def ratesOK (f : FinFrequencyTypes) (rs : List ℚ) : Prop :=
  ∀ r ∈ rs, f = .CONTINUOUS ∨ 0 < 1 + r / freqValQ f

/-- A concrete valuation date used by the witnesses. -/
def v0 : FinDate := ⟨0⟩

/-- Concrete observation dates one and two years after `v0`. -/
def zd0 : List FinDate := [⟨1⟩, ⟨2⟩]

/-- Concrete zero rates (2% and 2.5%). -/
def zr0 : List ℚ := [1 / 50, 1 / 40]

/-- The curve built from the concrete inputs above (annual compounding,
ACT/ACT day count, flat-forward interpolation). -/
noncomputable def sampleCurve : FinDiscountCurveZeros :=
  mkCurve v0 zd0 zr0 .ANNUAL .ACT_ACT_ISDA (.mem .FLAT_FORWARDS)

/-- A validly constructed curve whose single observation date equals the
valuation date, so its observation time is `0`. -/
noncomputable def curveT0 : FinDiscountCurveZeros :=
  mkCurve v0 [⟨0⟩] [1 / 50] .ANNUAL .ACT_ACT_ISDA (.mem .FLAT_FORWARDS)

/-- A validly constructed curve holding the degenerate annual rate `-2`
(discount factor `(1 + (-2))^(-2) = 1` at its two-year observation). -/
noncomputable def curveNeg : FinDiscountCurveZeros :=
  mkCurve v0 [⟨2⟩] [-2] .ANNUAL .ACT_ACT_ISDA (.mem .FLAT_FORWARDS)

/-- A hand-assembled curve state carrying a `_discountFactors`
attribute (as a Python caller could produce by assigning it). -/
noncomputable def wCurveA : FinDiscountCurveZeros :=
  { _valuationDate := ⟨0⟩, _frequencyType := .ANNUAL,
    _dayCountType := .ACT_ACT_ISDA, _interpMethod := .mem .FLAT_FORWARDS,
    _times := [1], _zeroRates := [1 / 50], _zeroDates := [⟨1⟩],
    _dfValues := [zeroToDf (1 / 50) 1 .ANNUAL], _discountFactors := some [1] }

/-- A curve state agreeing with `wCurveA` exactly on the valuation
date, times, `_discountFactors` and interpolation method, and differing
in every other attribute. -/
noncomputable def wCurveB : FinDiscountCurveZeros :=
  { _valuationDate := ⟨0⟩, _frequencyType := .CONTINUOUS,
    _dayCountType := .ACT_360, _interpMethod := .mem .FLAT_FORWARDS,
    _times := [1], _zeroRates := [1 / 40], _zeroDates := [⟨2⟩],
    _dfValues := [], _discountFactors := some [1] }

/-- A validly constructed curve with a single observation one year out
at an integer rate, used to evaluate the diagnostic rendering. -/
noncomputable def c8Curve : FinDiscountCurveZeros :=
  mkCurve v0 [⟨1⟩] [2] .ANNUAL .ACT_ACT_ISDA (.mem .FLAT_FORWARDS)

lemma testMonotonicity_iff (l : List ℚ) :
    testMonotonicity l = true ↔ List.Chain' (· < ·) l := by
  induction l with
  | nil => simp [testMonotonicity]
  | cons x rest ih =>
    cases rest with
    | nil => simp [testMonotonicity]
    | cons y rest2 =>
      simp only [testMonotonicity, Bool.and_eq_true, decide_eq_true_eq,
        List.chain'_cons] at ih ⊢
      rw [ih]

lemma construct_ok (valuationDate : FinDate) (zeroDates : List FinDate)
    (zeroRates : List ℚ) (fs : PyFreq) (ds : PyDayCount) (im : PyInterp)
    (c : FinDiscountCurveZeros)
    (h : construct valuationDate zeroDates zeroRates fs ds im = .ok c) :
    ∃ f dc, fs = .mem f ∧ ds = .mem dc ∧
      zeroDates.length ≠ 0 ∧ zeroDates.length = zeroRates.length ∧
      List.Chain' (· < ·) (timesFromDates zeroDates valuationDate dc) ∧
      c = mkCurve valuationDate zeroDates zeroRates f dc im := by
  unfold construct at h
  split_ifs at h with h1 h2
  cases fs with
  | notEnum s => exact absurd h (by simp)
  | mem f =>
    cases ds with
    | notEnum s => exact absurd h (by simp)
    | mem dc =>
      simp only [] at h
      split_ifs at h with h3
      refine ⟨f, dc, rfl, rfl, h1, not_ne_iff.mp h2, ?_, ?_⟩
      · rw [← testMonotonicity_iff]
        exact eq_true_of_ne_false h3
      · exact (Except.ok.injEq _ _).mp h |>.symm

lemma interpolateFF_at_zero (pts : List (ℝ × ℝ)) (h : ∀ p ∈ pts, 0 ≤ p.1) :
    interpolateFF 0 1 pts 0 = 1 := by
  cases pts with
  | nil => rfl
  | cons p rest =>
    obtain ⟨t1, df1⟩ := p
    have ht1 : (0 : ℝ) ≤ t1 := h (t1, df1) (List.mem_cons_self _ _)
    simp only [interpolateFF, if_pos (Or.inr ht1)]
    rw [sub_self, zero_div, Real.rpow_zero, one_mul]

lemma interpolateFF_knot (pts : List (ℝ × ℝ)) :
    ∀ (t0 df0 : ℝ) (i : ℕ) (hi : i < pts.length),
      List.Sorted (· < ·) (t0 :: pts.map Prod.fst) → df0 ≠ 0 →
      (∀ p ∈ pts, p.2 ≠ 0) →
      interpolateFF t0 df0 pts (pts.get ⟨i, hi⟩).1 = (pts.get ⟨i, hi⟩).2 := by
  induction pts with
  | nil => intro _ _ i hi; exact absurd hi (by simp)
  | cons p rest ih =>
    intro t0 df0 i hi hsort h0 hall
    obtain ⟨t1, df1⟩ := p
    have ht01 : t0 < t1 := by
      have := (List.sorted_cons.mp hsort).1
      exact this t1 (by simp)
    cases i with
    | zero =>
      show interpolateFF t0 df0 ((t1, df1) :: rest) t1 = df1
      simp only [interpolateFF, if_pos (Or.inr (le_refl t1))]
      rw [div_self (ne_of_gt (sub_pos.mpr ht01)), Real.rpow_one]
      field_simp
    | succ j =>
      have hj : j < rest.length := by simpa using hi
      have hq : (((t1, df1) :: rest).get ⟨j + 1, hi⟩) = rest.get ⟨j, hj⟩ := rfl
      have hmem : (rest.get ⟨j, hj⟩).1 ∈ rest.map Prod.fst :=
        List.mem_map_of_mem _ (rest.get_mem _ _)
      have ht1q : t1 < (rest.get ⟨j, hj⟩).1 := by
        have hs2 : List.Sorted (· < ·) (t1 :: rest.map Prod.fst) :=
          (List.sorted_cons.mp hsort).2
        exact (List.sorted_cons.mp hs2).1 _ hmem
      have hrest : rest ≠ [] := by
        intro hcon
        rw [hcon] at hj
        exact absurd hj (by simp)
      rw [hq]
      simp only [interpolateFF]
      rw [if_neg (by push_neg; exact ⟨hrest, ht1q⟩)]
      exact ih t1 df1 j hj (List.sorted_cons.mp hsort).2
        (hall (t1, df1) (by simp))
        (fun p hp => hall p (List.mem_cons_of_mem _ hp))

lemma dfToZero_discrete (b fv t : ℝ) (hfv : 0 < fv) (ht : 0 < t) (hb : 0 ≤ b) :
    fv * ((b ^ (-(fv * t))) ^ (-(1 / (fv * t))) - 1) = fv * (b - 1) := by
  have hft : fv * t ≠ 0 := ne_of_gt (mul_pos hfv ht)
  rw [← Real.rpow_mul hb, neg_mul_neg, mul_one_div, div_self hft, Real.rpow_one]

lemma freqValQ_pos (f : FinFrequencyTypes) (hf : f ≠ .CONTINUOUS) :
    0 < freqValQ f := by
  cases f <;> simp_all [freqValQ]

lemma zeroToDf_pos (r t : ℚ) (f : FinFrequencyTypes)
    (h : f = .CONTINUOUS ∨ 0 < 1 + r / freqValQ f) : 0 < zeroToDf r t f := by
  cases f with
  | CONTINUOUS => exact Real.exp_pos _
  | ANNUAL | SEMI_ANNUAL | QUARTERLY | MONTHLY =>
    apply Real.rpow_pos_of_pos
    rcases h with h | h
    · exact absurd h (by simp)
    · exact_mod_cast h

lemma dfToZero_zeroToDf_discrete (r t : ℚ) (f : FinFrequencyTypes)
    (hf : f ≠ .CONTINUOUS) (ht : 0 < t) (hb : 0 < 1 + r / freqValQ f) :
    dfToZero (zeroToDf r t f) (t : ℚ) f = (r : ℝ) := by
  have hfv : 0 < freqValQ f := freqValQ_pos f hf
  have hfvR : (0 : ℝ) < ((freqValQ f : ℚ) : ℝ) := by exact_mod_cast hfv
  have htR : (0 : ℝ) < ((t : ℚ) : ℝ) := by exact_mod_cast ht
  have hbR : (0 : ℝ) ≤ 1 + (r : ℝ) / ((freqValQ f : ℚ) : ℝ) := by
    exact_mod_cast le_of_lt hb
  cases f with
  | CONTINUOUS => exact absurd rfl hf
  | ANNUAL | SEMI_ANNUAL | QUARTERLY | MONTHLY =>
    simp only [zeroToDf, dfToZero]
    rw [dfToZero_discrete _ _ _ hfvR htR hbR]
    field_simp

lemma dfToZero_zeroToDf (r t : ℚ) (f : FinFrequencyTypes) (ht : 0 < t)
    (h : f = .CONTINUOUS ∨ 0 < 1 + r / freqValQ f) :
    dfToZero (zeroToDf r t f) (t : ℚ) f = (r : ℝ) := by
  cases f with
  | CONTINUOUS =>
    have htR : ((t : ℚ) : ℝ) ≠ 0 := by
      have : (0 : ℝ) < ((t : ℚ) : ℝ) := by exact_mod_cast ht
      exact ne_of_gt this
    simp only [zeroToDf, dfToZero, Real.log_exp]
    field_simp
  | ANNUAL | SEMI_ANNUAL | QUARTERLY | MONTHLY =>
    apply dfToZero_zeroToDf_discrete _ _ _ (by simp) ht
    rcases h with h | h
    · exact absurd h (by simp)
    · exact h

lemma timesFromDates_length (zd : List FinDate) (v : FinDate) (dc : FinDayCountTypes) :
    (timesFromDates zd v dc).length = zd.length := by
  simp [timesFromDates]

lemma buildCurvePoints_length (ts zr : List ℚ) (f : FinFrequencyTypes)
    (h : ts.length ≤ zr.length) :
    (buildCurvePoints ts zr f).length = ts.length := by
  simp only [buildCurvePoints, List.length_map, List.length_zip]
  omega

lemma buildCurvePoints_get (ts zr : List ℚ) (f : FinFrequencyTypes) (i : ℕ)
    (hi : i < ts.length) (hi2 : i < zr.length)
    (h : i < (buildCurvePoints ts zr f).length) :
    (buildCurvePoints ts zr f).get ⟨i, h⟩
      = zeroToDf (zr.get ⟨i, hi2⟩) (ts.get ⟨i, hi⟩) f := by
  simp [buildCurvePoints, List.getElem_zip]

lemma getDiscountFactor_knot (v : FinDate) (zd : List FinDate) (zr : List ℚ)
    (f : FinFrequencyTypes) (dc : FinDayCountTypes) (im : PyInterp) (i : ℕ)
    (hlen : zd.length = zr.length)
    (hi : i < (timesFromDates zd v dc).length)
    (hi2 : i < zr.length)
    (hpos : ∀ q ∈ timesFromDates zd v dc, 0 < q)
    (hchain : List.Chain' (· < ·) (timesFromDates zd v dc))
    (hrates : ratesOK f zr) :
    getDiscountFactor (mkCurve v zd zr f dc im)
        (((timesFromDates zd v dc).get ⟨i, hi⟩ : ℚ) : ℝ)
      = zeroToDf (zr.get ⟨i, hi2⟩) ((timesFromDates zd v dc).get ⟨i, hi⟩) f := by
  set ts := timesFromDates zd v dc with hts
  have hlents : ts.length = zd.length := timesFromDates_length zd v dc
  have hlendfs : (buildCurvePoints ts zr f).length = ts.length :=
    buildCurvePoints_length ts zr f (by omega)
  set dfs := buildCurvePoints ts zr f with hdfs
  set pts := (ts.map fun (q : ℚ) => (q : ℝ)).zip dfs with hpts
  have hptslen : pts.length = ts.length := by
    simp only [hpts, List.length_zip, List.length_map, hlendfs, min_self]
  have hip : i < pts.length := by omega
  have hidfs : i < dfs.length := by omega
  have hptget : pts.get ⟨i, hip⟩ = ((ts.get ⟨i, hi⟩ : ℝ), dfs.get ⟨i, hidfs⟩) := by
    simp [hpts, List.getElem_zip]
  have hdfget : dfs.get ⟨i, hidfs⟩ = zeroToDf (zr.get ⟨i, hi2⟩) (ts.get ⟨i, hi⟩) f :=
    buildCurvePoints_get ts zr f i hi hi2 _
  have hfst : pts.map Prod.fst = ts.map fun (q : ℚ) => (q : ℝ) := by
    apply List.map_fst_zip
    simp only [List.length_map]
    omega
  have hsort : List.Sorted (· < ·) ((0 : ℝ) :: pts.map Prod.fst) := by
    rw [hfst]
    refine List.sorted_cons.mpr ⟨?_, ?_⟩
    · intro b hb
      obtain ⟨q, hq, rfl⟩ := List.mem_map.mp hb
      exact_mod_cast hpos q hq
    · refine (List.pairwise_map).mpr ?_
      have := List.chain'_iff_pairwise.mp hchain
      exact this.imp fun h => by exact_mod_cast h
  have hnz : ∀ p ∈ pts, p.2 ≠ 0 := by
    intro p hp
    have hsnd : p.2 ∈ dfs := (List.of_mem_zip hp).2
    obtain ⟨pair, hpair, hval⟩ := List.mem_map.mp hsnd
    have hr : pair.2 ∈ zr := (List.of_mem_zip hpair).2
    rw [← hval]
    exact ne_of_gt (zeroToDf_pos _ _ _ (hrates _ hr))
  have hmain := interpolateFF_knot pts 0 1 i hip hsort one_ne_zero hnz
  rw [hptget] at hmain
  have hmain2 : interpolateFF 0 1 pts ((ts.get ⟨i, hi⟩ : ℚ) : ℝ)
      = dfs.get ⟨i, hidfs⟩ := hmain
  have hfin := hmain2.trans hdfget
  simp only [getDiscountFactor, mkCurve]
  exact hfin

lemma times_sample : timesFromDates zd0 v0 .ACT_ACT_ISDA = [1, 2] := by
  norm_num [timesFromDates, zd0, v0]

lemma construct_succeeds (v : FinDate) (zd : List FinDate) (zr : List ℚ)
    (f : FinFrequencyTypes) (dc : FinDayCountTypes) (im : PyInterp)
    (h1 : zd.length ≠ 0) (h2 : zd.length = zr.length)
    (h3 : testMonotonicity (timesFromDates zd v dc) = true) :
    construct v zd zr (.mem f) (.mem dc) im = .ok (mkCurve v zd zr f dc im) := by
  unfold construct
  rw [if_neg h1, if_neg (not_not_intro h2)]
  show (if testMonotonicity (timesFromDates zd v dc) = false then _ else _) = _
  rw [if_neg (by simp [h3])]

lemma construct_sample :
    construct v0 zd0 zr0 (.mem .ANNUAL) (.mem .ACT_ACT_ISDA) (.mem .FLAT_FORWARDS)
      = .ok sampleCurve :=
  construct_succeeds v0 zd0 zr0 _ _ _ (by decide) (by decide)
    (by rw [times_sample]; rfl)

lemma construct_curveT0 :
    construct v0 [⟨0⟩] [1 / 50] (.mem .ANNUAL) (.mem .ACT_ACT_ISDA) (.mem .FLAT_FORWARDS)
      = .ok curveT0 :=
  construct_succeeds v0 [⟨0⟩] [1 / 50] _ _ _ (by decide) (by decide) rfl

lemma construct_curveNeg :
    construct v0 [⟨2⟩] [-2] (.mem .ANNUAL) (.mem .ACT_ACT_ISDA) (.mem .FLAT_FORWARDS)
      = .ok curveNeg :=
  construct_succeeds v0 [⟨2⟩] [-2] _ _ _ (by decide) (by decide) rfl

lemma sample_times : sampleCurve._times = [1, 2] := by
  simp only [sampleCurve, mkCurve]
  exact times_sample

/-- C1: the claim states that `bump(s)` returns a new curve over the
same times with each discount factor scaled by `exp (-s t)`.  On the
code, `bump` reads the `_discountFactors` attribute, which construction
never assigns (it assigns `_dfValues`), so on the concrete validly
constructed curve below `bump` raises `AttributeError` instead of
returning any curve. -/
theorem C1_bump_raises_attribute_error :
    construct v0 zd0 zr0 (.mem .ANNUAL) (.mem .ACT_ACT_ISDA) (.mem .FLAT_FORWARDS)
        = .ok sampleCurve
      ∧ bump sampleCurve (1 / 100) = .error (.attributeError "_discountFactors") :=
  ⟨construct_sample, rfl⟩

/-- C6: the claim states `curve.bump(0)` has the same discount factors
as `curve`.  On the code, `bump 0` on the concrete validly constructed
curve raises `AttributeError` (the `_discountFactors` attribute is
never assigned), so no zero-shift curve is produced at all. -/
theorem C6_zero_bump_raises_attribute_error :
    construct v0 zd0 zr0 (.mem .ANNUAL) (.mem .ACT_ACT_ISDA) (.mem .FLAT_FORWARDS)
        = .ok sampleCurve
      ∧ bump sampleCurve 0 = .error (.attributeError "_discountFactors") :=
  ⟨construct_sample, rfl⟩

/-- C7: the claim states `bump` leaves the source curve unchanged and
returns an independent curve.  The source curve is indeed never
mutated (no attribute of the object is assigned by `bump`, which the
pure translation reflects), but on the code no independent curve is
ever returned: on the concrete validly constructed curve `bump` raises
`AttributeError` for any shift, here `2`. -/
theorem C7_bump_never_returns_independent_curve :
    construct v0 zd0 zr0 (.mem .ANNUAL) (.mem .ACT_ACT_ISDA) (.mem .FLAT_FORWARDS)
        = .ok sampleCurve
      ∧ bump sampleCurve 2 = .error (.attributeError "_discountFactors") :=
  ⟨construct_sample, rfl⟩

/-- C4: every curve that construction returns satisfies the length
invariants (`_dfValues`, `_zeroDates`, `_zeroRates` all as long as
`_times`, and nonempty), has strictly increasing times, and has
non-negative times (in particular `times[0] ≥ 0`).  No operation
assigns to the curve's attributes after construction, which the pure
translation reflects. -/
theorem C4_curve_invariants (v : FinDate) (zd : List FinDate) (zr : List ℚ)
    (fs : PyFreq) (ds : PyDayCount) (im : PyInterp) (c : FinDiscountCurveZeros)
    (h : construct v zd zr fs ds im = .ok c) :
    c._dfValues.length = c._times.length
      ∧ c._zeroDates.length = c._times.length
      ∧ c._zeroRates.length = c._times.length
      ∧ 0 < c._times.length
      ∧ List.Chain' (· < ·) c._times
      ∧ ∀ q ∈ c._times, 0 ≤ q := by
  obtain ⟨f, dc, rfl, rfl, hne, hlen, hchain, rfl⟩ := construct_ok _ _ _ _ _ _ _ h
  have hts : (timesFromDates zd v dc).length = zd.length := timesFromDates_length zd v dc
  refine ⟨?_, ?_, ?_, ?_, ?_, ?_⟩
  · simp only [mkCurve]
    exact buildCurvePoints_length _ _ _ (by omega)
  · simp only [mkCurve, hts]
  · simp only [mkCurve, hts, hlen]
  · simp only [mkCurve, hts]
    omega
  · exact hchain
  · intro q hq
    simp only [mkCurve, timesFromDates, List.mem_map] at hq
    obtain ⟨d, _, rfl⟩ := hq
    split_ifs with hcase
    · exact le_refl 0
    · exact sub_nonneg.mpr (le_of_lt (not_le.mp hcase))

/-- C4 witness: the invariants hold on the concrete constructed curve. -/
theorem C4_curve_invariants_witness :
    sampleCurve._dfValues.length = sampleCurve._times.length
      ∧ sampleCurve._zeroDates.length = sampleCurve._times.length
      ∧ sampleCurve._zeroRates.length = sampleCurve._times.length
      ∧ 0 < sampleCurve._times.length
      ∧ List.Chain' (· < ·) sampleCurve._times
      ∧ ∀ q ∈ sampleCurve._times, 0 ≤ q :=
  C4_curve_invariants v0 zd0 zr0 _ _ _ sampleCurve construct_sample

/-- C5: for every validly constructed curve, regardless of the rates
and of the frequency, day-count and interpolation selectors passed,
the discount factor queried at time `0` is exactly `1`. -/
theorem C5_df_at_zero_is_one (v : FinDate) (zd : List FinDate) (zr : List ℚ)
    (fs : PyFreq) (ds : PyDayCount) (im : PyInterp) (c : FinDiscountCurveZeros)
    (h : construct v zd zr fs ds im = .ok c) :
    getDiscountFactor c 0 = 1 := by
  obtain ⟨f, dc, rfl, rfl, _, _, _, rfl⟩ := construct_ok _ _ _ _ _ _ _ h
  simp only [getDiscountFactor, mkCurve]
  apply interpolateFF_at_zero
  intro p hp
  obtain ⟨a, b⟩ := p
  have h1 : a ∈ (timesFromDates zd v dc).map fun (q : ℚ) => (q : ℝ) :=
    (List.of_mem_zip hp).1
  simp only [timesFromDates, List.map_map, List.mem_map] at h1
  obtain ⟨d, _, hda⟩ := h1
  show (0 : ℝ) ≤ a
  rw [← hda]
  simp only [Function.comp_apply]
  have h0 : (0 : ℚ) ≤ if d.t ≤ v.t then 0 else d.t - v.t := by
    split_ifs with hcase
    · exact le_refl 0
    · exact sub_nonneg.mpr (le_of_lt (not_le.mp hcase))
  exact_mod_cast h0

/-- C5 witness: the identity discount factor at the concrete curve. -/
theorem C5_df_at_zero_is_one_witness : getDiscountFactor sampleCurve 0 = 1 :=
  C5_df_at_zero_is_one v0 zd0 zr0 _ _ _ sampleCurve construct_sample

/-- C9: the constructor performs enum-membership checks only for the
frequency and day-count selectors; any interpolation-method value,
including one outside the recognized enumeration, causes no error and
is stored exactly as given. -/
theorem C9_interp_method_not_validated (v : FinDate) (zd : List FinDate)
    (zr : List ℚ) (f : FinFrequencyTypes) (dc : FinDayCountTypes) (im : PyInterp)
    (h1 : zd.length ≠ 0) (h2 : zd.length = zr.length)
    (h3 : testMonotonicity (timesFromDates zd v dc) = true) :
    construct v zd zr (.mem f) (.mem dc) im = .ok (mkCurve v zd zr f dc im)
      ∧ (mkCurve v zd zr f dc im)._interpMethod = im :=
  ⟨construct_succeeds v zd zr f dc im h1 h2 h3, rfl⟩

/-- C9 witness: a value outside the interpolation enumeration is
accepted and stored as given. -/
theorem C9_interp_method_not_validated_witness :
    construct v0 zd0 zr0 (.mem .ANNUAL) (.mem .ACT_ACT_ISDA) (.notEnum "SOME_OTHER_VALUE")
        = .ok (mkCurve v0 zd0 zr0 .ANNUAL .ACT_ACT_ISDA (.notEnum "SOME_OTHER_VALUE"))
      ∧ (mkCurve v0 zd0 zr0 .ANNUAL .ACT_ACT_ISDA
          (.notEnum "SOME_OTHER_VALUE"))._interpMethod = .notEnum "SOME_OTHER_VALUE" :=
  C9_interp_method_not_validated v0 zd0 zr0 _ _ _ (by decide) (by decide)
    (by rw [times_sample]; rfl)

/-- C10: the result of `bump` is computed only from the valuation
date, the times, the `_discountFactors` attribute and the
interpolation method of the source object: two curve states agreeing
on those four attributes produce identical `bump` results whatever
their frequency and day-count conventions and their retained
`_zeroDates`/`_zeroRates` are (the returned base curve holds no such
attributes). -/
theorem C10_bump_uses_only_base_fields (c₁ c₂ : FinDiscountCurveZeros) (s : ℝ)
    (h1 : c₁._valuationDate = c₂._valuationDate) (h2 : c₁._times = c₂._times)
    (h3 : c₁._discountFactors = c₂._discountFactors)
    (h4 : c₁._interpMethod = c₂._interpMethod) :
    bump c₁ s = bump c₂ s := by
  simp only [bump, h1, h2, h3, h4]

/-- C10 witness: two states differing in conventions and retained
observations but agreeing on the four base attributes bump alike. -/
theorem C10_bump_uses_only_base_fields_witness :
    bump wCurveA (1 / 2) = bump wCurveB (1 / 2) :=
  C10_bump_uses_only_base_fields wCurveA wCurveB (1 / 2) rfl rfl rfl rfl

/-- C2 (amended): for every validly constructed curve whose observation
times are all strictly positive and whose rates are nondegenerate for
the curve's compounding convention (`1 + r/f > 0` under a discrete
frequency `f`; no condition under continuous compounding), the
zero-rate query at the i-th observation time returns exactly the i-th
input rate. -/
theorem C2_roundtrip_at_observation_times (v : FinDate) (zd : List FinDate)
    (zr : List ℚ) (fs : PyFreq) (ds : PyDayCount) (im : PyInterp)
    (c : FinDiscountCurveZeros) (h : construct v zd zr fs ds im = .ok c)
    (i : ℕ) (hi : i < c._times.length) (hir : i < c._zeroRates.length)
    (hpos : ∀ q ∈ c._times, 0 < q)
    (hrates : ratesOK c._frequencyType c._zeroRates) :
    getZeroRate c ((c._times.get ⟨i, hi⟩ : ℚ) : ℝ)
      = ((c._zeroRates.get ⟨i, hir⟩ : ℚ) : ℝ) := by
  obtain ⟨f, dc, rfl, rfl, hne, hlen, hchain, rfl⟩ := construct_ok _ _ _ _ _ _ _ h
  simp only [mkCurve] at hi hir hpos hrates ⊢
  unfold getZeroRate
  have hknot := getDiscountFactor_knot v zd zr f dc im i hlen hi hir hpos hchain hrates
  simp only [mkCurve] at hknot
  rw [hknot]
  exact dfToZero_zeroToDf _ _ f (hpos _ (List.get_mem _ _ _))
    (hrates _ (List.get_mem _ _ _))

/-- C2 witness: on the concrete curve (rates 2% and 2.5%, annual
compounding, times 1 and 2) the zero rate queried at time 1 is exactly
2%. -/
theorem C2_roundtrip_at_observation_times_witness :
    getZeroRate sampleCurve 1 = 1 / 50 := by
  have hi : 0 < sampleCurve._times.length := by rw [sample_times]; decide
  have hir : 0 < sampleCurve._zeroRates.length := by decide
  have hpos : ∀ q ∈ sampleCurve._times, 0 < q := by
    rw [sample_times]
    decide
  have hrates : ratesOK sampleCurve._frequencyType sampleCurve._zeroRates := by
    have hf : sampleCurve._frequencyType = .ANNUAL := rfl
    have hr : sampleCurve._zeroRates = zr0 := rfl
    rw [hf, hr]
    intro r hrm
    right
    fin_cases hrm <;> norm_num [freqValQ]
  have h := C2_roundtrip_at_observation_times v0 zd0 zr0 _ _ _ sampleCurve
    construct_sample 0 hi hir hpos hrates
  have e1 : sampleCurve._times.get ⟨0, hi⟩ = 1 := by
    rw [List.get_of_eq sample_times]
    rfl
  have e2 : sampleCurve._zeroRates.get ⟨0, hir⟩ = 1 / 50 := rfl
  rw [e1, e2] at h
  have e3 : ((1 : ℚ) : ℝ) = (1 : ℝ) := by norm_num
  have e4 : ((1 / 50 : ℚ) : ℝ) = (1 / 50 : ℝ) := by norm_num
  rw [e3, e4] at h
  exact h

lemma curveT0_times : timesFromDates [⟨0⟩] v0 .ACT_ACT_ISDA = [0] := by
  norm_num [timesFromDates, v0]

lemma curveNeg_times : timesFromDates [⟨2⟩] v0 .ACT_ACT_ISDA = [2] := by
  norm_num [timesFromDates, v0]

lemma curveT0_df : getDiscountFactor curveT0 0 = 1 := by
  simp only [getDiscountFactor, curveT0, mkCurve, curveT0_times, buildCurvePoints]
  simp [interpolateFF, Real.rpow_zero]

lemma curveT0_zeroRate : getZeroRate curveT0 0 = 0 := by
  unfold getZeroRate
  rw [curveT0_df]
  have hf : curveT0._frequencyType = .ANNUAL := rfl
  rw [hf]
  simp [dfToZero, freqValQ, Real.one_rpow]

lemma curveNeg_zeroToDf : zeroToDf (-2) 2 .ANNUAL = 1 := by
  simp only [zeroToDf]
  have hb : (1 + ((-2 : ℚ) : ℝ) / ((freqValQ .ANNUAL : ℚ) : ℝ)) = -1 := by
    norm_num [freqValQ]
  have he : (-(((freqValQ .ANNUAL : ℚ) : ℝ) * ((2 : ℚ) : ℝ))) = ((-2 : ℤ) : ℝ) := by
    norm_num [freqValQ]
  rw [hb, he, Real.rpow_intCast]
  norm_num

lemma curveNeg_df : getDiscountFactor curveNeg ((2 : ℚ) : ℝ) = 1 := by
  simp only [getDiscountFactor, curveNeg, mkCurve, curveNeg_times, buildCurvePoints]
  simp [interpolateFF, curveNeg_zeroToDf, Real.one_rpow]

lemma curveNeg_zeroRate : getZeroRate curveNeg ((2 : ℚ) : ℝ) = 0 := by
  unfold getZeroRate
  rw [curveNeg_df]
  have hf : curveNeg._frequencyType = .ANNUAL := rfl
  rw [hf]
  simp [dfToZero, freqValQ, Real.one_rpow]

/-- C2 counterexample: the round-trip claim fails as stated on two
validly constructed curves.  On `curveT0` (observation date equal to
the valuation date, so observation time `0`, rate 2%) the zero-rate
query at the observation time returns `0`, off by 2% — a zero
observation time makes any rate unrecoverable from the discount
factor `1`.  On `curveNeg` (annual rate `-2`, observation time `2`,
discount factor `(1 + (-2))^(-2) = 1`) the query returns `0`, off by
`2`.  Both errors exceed the claimed `1e-10` tolerance. -/
theorem C2_roundtrip_counterexample :
    (construct v0 [⟨0⟩] [1 / 50] (.mem .ANNUAL) (.mem .ACT_ACT_ISDA) (.mem .FLAT_FORWARDS)
        = .ok curveT0
      ∧ curveT0._times = [0]
      ∧ ¬ |getZeroRate curveT0 0 - ((1 / 50 : ℚ) : ℝ)| ≤ 1 / 10 ^ 10)
    ∧ (construct v0 [⟨2⟩] [-2] (.mem .ANNUAL) (.mem .ACT_ACT_ISDA) (.mem .FLAT_FORWARDS)
        = .ok curveNeg
      ∧ curveNeg._times = [2]
      ∧ ¬ |getZeroRate curveNeg ((2 : ℚ) : ℝ) - ((-2 : ℚ) : ℝ)| ≤ 1 / 10 ^ 10) := by
  refine ⟨⟨construct_curveT0, ?_, ?_⟩, construct_curveNeg, ?_, ?_⟩
  · simp only [curveT0, mkCurve]
    exact curveT0_times
  · rw [curveT0_zeroRate]
    norm_num [abs_le]
  · simp only [curveNeg, mkCurve]
    exact curveNeg_times
  · rw [curveNeg_zeroRate]
    norm_num [abs_le]

/-- C3 (amended): construction validation is fail-fast in the order
empty dates, length mismatch, unknown frequency selector, unknown
day-count selector, non-monotonic times; each violation raises a
`FinError` whose message identifies that specific invariant (the five
messages are pairwise distinct), and an input with several violations
raises the error of the first failing check in this order.  All five
are the same error kind, the library's generic `FinError`. -/
theorem C3_validation_order (v : FinDate) (zd : List FinDate) (zr : List ℚ)
    (fs : PyFreq) (ds : PyDayCount) (im : PyInterp) :
    (zd.length = 0 →
        construct v zd zr fs ds im = .error (.finError "Dates has zero length"))
    ∧ (zd.length ≠ 0 → zd.length ≠ zr.length →
        construct v zd zr fs ds im
          = .error (.finError "Dates and Rates are not the same length"))
    ∧ (∀ s, zd.length ≠ 0 → zd.length = zr.length → fs = .notEnum s →
        construct v zd zr fs ds im
          = .error (.finError ("Unknown Frequency type " ++ s)))
    ∧ (∀ f s, zd.length ≠ 0 → zd.length = zr.length → fs = .mem f →
        ds = .notEnum s →
        construct v zd zr fs ds im
          = .error (.finError ("Unknown Cap Floor DayCountRule type " ++ s)))
    ∧ (∀ f dc, zd.length ≠ 0 → zd.length = zr.length → fs = .mem f →
        ds = .mem dc → testMonotonicity (timesFromDates zd v dc) = false →
        construct v zd zr fs ds im
          = .error (.finError "Times or dates are not sorted in increasing order"))
    ∧ (["Dates has zero length", "Dates and Rates are not the same length",
        "Unknown Frequency type X", "Unknown Cap Floor DayCountRule type Y",
        "Times or dates are not sorted in increasing order"] : List String).Pairwise (· ≠ ·) := by
  refine ⟨?_, ?_, ?_, ?_, ?_, by decide⟩
  · intro h1
    unfold construct
    rw [if_pos h1]
  · intro h1 h2
    unfold construct
    rw [if_neg h1, if_pos h2]
  · intro s h1 h2 hfs
    subst hfs
    unfold construct
    rw [if_neg h1, if_neg (not_not_intro h2)]
  · intro f s h1 h2 hfs hds
    subst hfs
    subst hds
    unfold construct
    rw [if_neg h1, if_neg (not_not_intro h2)]
  · intro f dc h1 h2 hfs hds h5
    subst hfs
    subst hds
    unfold construct
    rw [if_neg h1, if_neg (not_not_intro h2)]
    show (if testMonotonicity (timesFromDates zd v dc) = false then _ else _) = _
    rw [if_pos h5]

/-- C3 witness: on the concrete empty input the first check fires with
its identifying message. -/
theorem C3_validation_order_witness :
    construct v0 [] [] (.mem .ANNUAL) (.mem .ACT_ACT_ISDA) (.mem .FLAT_FORWARDS)
      = .error (.finError "Dates has zero length") :=
  (C3_validation_order v0 [] [] _ _ _).1 rfl

/-- C3 counterexample: the empty-input violation and the
length-mismatch violation raise errors of the same Python exception
kind — both are the single generic class `FinError` — so the claim
that each violation raises a distinct error kind (EmptyInputError,
LengthMismatchError, ...) is false on the code; only the messages
differ. -/
theorem C3_error_kinds_not_distinct :
    pyErrKind (errOf (construct v0 [] []
        (.mem .ANNUAL) (.mem .ACT_ACT_ISDA) (.mem .FLAT_FORWARDS)))
      = pyErrKind (errOf (construct v0 [⟨1⟩, ⟨2⟩, ⟨3⟩] [1, 2]
        (.mem .ANNUAL) (.mem .ACT_ACT_ISDA) (.mem .FLAT_FORWARDS)))
    ∧ pyErrKind (errOf (construct v0 [] []
        (.mem .ANNUAL) (.mem .ACT_ACT_ISDA) (.mem .FLAT_FORWARDS))) = "FinError" :=
  ⟨rfl, rfl⟩

lemma construct_c8 :
    construct v0 [⟨1⟩] [2] (.mem .ANNUAL) (.mem .ACT_ACT_ISDA) (.mem .FLAT_FORWARDS)
      = .ok c8Curve := by
  unfold c8Curve
  exact construct_succeeds v0 [⟨1⟩] [2] _ _ _ (by decide) (by decide) rfl

lemma range_getD_map_eq_zip_map {α β γ : Type} (g : α → β → γ)
    (l1 : List α) (l2 : List β) (d1 : α) (d2 : β) (h : l1.length = l2.length) :
    (List.range l1.length).map (fun i => g (l1.getD i d1) (l2.getD i d2))
      = (l1.zip l2).map fun p => g p.1 p.2 := by
  apply List.ext_getElem
  · simp [h]
  · intro i h1 h2
    have hi1 : i < l1.length := by simpa using h1
    have hi2 : i < l2.length := by omega
    simp [List.getElem_zip, List.getD_eq_getElem?_getD,
      List.getElem?_eq_getElem hi1, List.getElem?_eq_getElem hi2]

/-- C8 (amended): for every validly constructed curve the diagnostic
rendering equals the rendering determined by the retained original
inputs alone — the curve type name, then a ("DATES", "ZERO RATES")
header line, then one line per retained (zero date, zero rate)
observation in input order, then the compounding-frequency label. -/
theorem C8_repr_from_retained_inputs (v : FinDate) (zd : List FinDate)
    (zr : List ℚ) (fs : PyFreq) (ds : PyDayCount) (im : PyInterp)
    (c : FinDiscountCurveZeros) (h : construct v zd zr fs ds im = .ok c) :
    reprZeros c = reprAmended c := by
  obtain ⟨f, dc, rfl, rfl, hne, hlen, hchain, rfl⟩ := construct_ok _ _ _ _ _ _ _ h
  simp only [reprZeros, reprAmended, mkCurve, timesFromDates_length]
  rw [range_getD_map_eq_zip_map (fun d r => labelToString (pyStrDate d) (ratStr r))
    zd zr ⟨0⟩ 0 hlen]

/-- C8 witness: the rendering of the concrete constructed curve is the
one determined by its retained inputs. -/
theorem C8_repr_from_retained_inputs_witness :
    reprZeros c8Curve = reprAmended c8Curve :=
  C8_repr_from_retained_inputs v0 [⟨1⟩] [2] _ _ _ c8Curve construct_c8

/-- C8 counterexample: on a concrete validly constructed curve the
actual rendering differs from the claimed shape (type name, observation
lines, frequency label and nothing else): the code emits an additional
("DATES", "ZERO RATES") header line between the type name and the
observation lines. -/
theorem C8_repr_counterexample :
    construct v0 [⟨1⟩] [2] (.mem .ANNUAL) (.mem .ACT_ACT_ISDA) (.mem .FLAT_FORWARDS)
        = .ok c8Curve
      ∧ reprZeros c8Curve ≠ reprPerClaim c8Curve :=
  ⟨construct_c8, by decide⟩
